import Mathlib

/-!
Shallow embedding of the ksck cluster-consistency checker
(src/kudu/tools/ksck.h) and its specification.

Only the header is available: every method body written inline in
ksck.h (KsckTabletReplica / KsckTablet / KsckTable accessors and
mutators, ChecksumResultReporter::ReportResult / ReportError /
AllReported / WaitFor, KsckTabletServer::EnsureConnected,
KsckMaster::EnsureConnected) is embedded directly from that source.
Bodies living in ksck.cc (Ksck::VerifyTablet, Ksck::ChecksumData,
ChecksumResultReporter::HandleResponse, ...) and the pure-virtual
peer contracts are modelled from the spec; each such definition says
so in its doc comment.
-/

namespace Ksck

/-- Embedding of kudu::Status: either OK or an error carrying a message. -/
inductive Status where
  | ok : Status
  | error : String → Status
deriving DecidableEq, Repr

/-- Status::ok() check. -/
def Status.isOK : Status → Bool
  | .ok => true
  | .error _ => false

/-- The Schema type is out of scope (external collaborator); the checker
only passes it through, so any carrier works. We use String. -/
abbrev Schema := String

/-- Embedding of KsckTabletReplica (ksck.h:25-50): owning tablet-server
uuid plus the two role flags, all fields const after construction. -/
structure KsckTabletReplica where
  ts_uuid : String
  is_leader : Bool
  is_follower : Bool
deriving DecidableEq, Repr

/-- Embedding of KsckTablet (ksck.h:53-75): const id plus the replica
vector. -/
structure KsckTablet where
  id : String
  replicas : List KsckTabletReplica
deriving DecidableEq, Repr

/-- Embedding of KsckTablet::set_replicas (ksck.h:68-70):
replicas_.assign(replicas.begin(), replicas.end()) replaces the stored
vector's contents with exactly the given sequence. -/
def KsckTablet.set_replicas (t : KsckTablet) (rs : List KsckTabletReplica) : KsckTablet :=
  { t with replicas := rs }

/-- Embedding of KsckTable (ksck.h:78-112): const name, schema and
replication factor (a C++ int), plus the tablet vector. -/
structure KsckTable where
  name : String
  schema : Schema
  num_replicas : Int
  tablets : List KsckTablet
deriving DecidableEq, Repr

/-- Embedding of KsckTable::set_tablets (ksck.h:98-100):
tablets_.assign(tablets.begin(), tablets.end()) replaces the stored
vector's contents with exactly the given sequence. -/
def KsckTable.set_tablets (tbl : KsckTable) (ts : List KsckTablet) : KsckTable :=
  { tbl with tablets := ts }

/-! ## ChecksumResultReporter -/

/-- Embedding of ChecksumResultReporter::ResultPair (ksck.h:118):
std::pair of a Status and a uint64_t checksum. Checksums stay below
2^64 throughout (no arithmetic is performed on them), so Nat is an
exact carrier. -/
abbrev ResultPair := Status × Nat

/-- The nested unordered_map { tablet_id : { replica_uuid : ResultPair } }
(ksck.h:119-120), embedded as an association list keyed by the
(tablet_id, replica_uuid) pair. Each key is written at most once per
reporter (spec section 3), which the association-list reading respects:
lookup takes the most recent write. -/
abbrev TabletResultMap := List ((String × String) × ResultPair)

/-- Embedding of the ChecksumResultReporter state (ksck.h:116-159): the
CountDownLatch responses_ (just its count here) initialized to
num_tablet_replicas, and the lock-protected checksums_ map. -/
structure ChecksumResultReporter where
  num_tablet_replicas : Nat
  responses_count : Nat
  checksums_ : TabletResultMap
deriving DecidableEq, Repr

/-- The constructor ChecksumResultReporter(num_tablet_replicas)
(ksck.h:123): latch count starts at num_tablet_replicas, map empty. -/
def mkReporter (num_tablet_replicas : Nat) : ChecksumResultReporter :=
  { num_tablet_replicas := num_tablet_replicas
    responses_count := num_tablet_replicas
    checksums_ := [] }

/-- Modelled from the spec: ChecksumResultReporter::HandleResponse is
declared at ksck.h:152-153 but defined in ksck.cc, which is not among
the sources. Per the header comments and spec section 4.2 it writes the
(status, checksum) entry into the result map under the
(tablet_id, replica_uuid) key and counts down the responses_ latch by
exactly one, regardless of success or failure. -/
def HandleResponse (r : ChecksumResultReporter) (tablet_id replica_uuid : String)
    (status : Status) (checksum : Nat) : ChecksumResultReporter :=
  { r with
    responses_count := r.responses_count - 1
    checksums_ := ((tablet_id, replica_uuid), (status, checksum)) :: r.checksums_ }

/-- Embedding of ChecksumResultReporter::ReportResult (ksck.h:126-129):
forwards to HandleResponse with Status::OK() and the checksum. -/
def ReportResult (r : ChecksumResultReporter) (tablet_id replica_uuid : String)
    (checksum : Nat) : ChecksumResultReporter :=
  HandleResponse r tablet_id replica_uuid .ok checksum

/-- Embedding of ChecksumResultReporter::ReportError (ksck.h:132-135):
forwards to HandleResponse with the error status and checksum 0. -/
def ReportError (r : ChecksumResultReporter) (tablet_id replica_uuid : String)
    (status : Status) : ChecksumResultReporter :=
  HandleResponse r tablet_id replica_uuid status 0

/-- Embedding of ChecksumResultReporter::AllReported (ksck.h:145):
responses_.count() == 0. -/
def AllReported (r : ChecksumResultReporter) : Bool :=
  r.responses_count == 0

/-- Embedding of ChecksumResultReporter::WaitFor (ksck.h:142):
responses_.WaitFor(timeout). CountDownLatch::WaitFor returns true iff
the count reached zero before the timeout elapsed; in this sequential
embedding the reporter state it observes at return is the argument, so
the call returns whether that state has counted down to zero. A zero
timeout observes the state as-is. -/
def WaitFor (r : ChecksumResultReporter) (_timeout : Nat) : Bool :=
  r.responses_count == 0

/-- Embedding of ChecksumResultReporter::checksums (ksck.h:148): returns
a snapshot copy of checksums_ taken under the lock. -/
def checksums (r : ChecksumResultReporter) : TabletResultMap :=
  r.checksums_

/-- One report arriving at the reporter: either a successful checksum or
an error, for one (tablet, replica) pair. Used to quantify over
arbitrary orders and mixes of ReportResult / ReportError calls. -/
inductive ReportEvent where
  | result (tablet_id replica_uuid : String) (checksum : Nat)
  | err (tablet_id replica_uuid : String) (status : Status)
deriving DecidableEq, Repr

/-- Apply one report call to the reporter. -/
def applyEvent (r : ChecksumResultReporter) : ReportEvent → ChecksumResultReporter
  | .result tablet_id replica_uuid checksum => ReportResult r tablet_id replica_uuid checksum
  | .err tablet_id replica_uuid status => ReportError r tablet_id replica_uuid status

/-- Apply a sequence of report calls, in order. -/
def applyEvents (r : ChecksumResultReporter) (es : List ReportEvent) : ChecksumResultReporter :=
  es.foldl applyEvent r

/-! ## Peers (tablet server / master) -/

/-- Connection state of a peer (tablet server or master). IsConnected
(ksck.h:178, ksck.h:219) returns true iff Connect has been called and
was successful; connect_calls counts the Connect invocations so that
"no redundant connect" is observable. -/
structure PeerState where
  connected : Bool
  connect_calls : Nat
deriving DecidableEq, Repr

/-- Peers are constructed unconnected (spec section 3). -/
def PeerState.init : PeerState :=
  { connected := false, connect_calls := 0 }

/-- IsConnected accessor. -/
def IsConnected (p : PeerState) : Bool :=
  p.connected

/-- Modelled from the spec: Connect is pure virtual (ksck.h:175,
ksck.h:216); per the header comment on IsConnected, after a successful
Connect the peer is connected, and a failed Connect leaves it
unconnected. The outcome parameter is the environment's answer for this
invocation. -/
def Connect (outcome : Status) (p : PeerState) : Status × PeerState :=
  (outcome, { connected := outcome.isOK, connect_calls := p.connect_calls + 1 })

/-- Embedding of KsckTabletServer::EnsureConnected (ksck.h:181-184) and
the identical KsckMaster::EnsureConnected (ksck.h:222-225):
if (IsConnected()) return Status::OK(); return Connect(). -/
def EnsureConnected (outcome : Status) (p : PeerState) : Status × PeerState :=
  if IsConnected p then (.ok, p) else Connect outcome p

/-! ## Checker: table consistency -/

/-- Modelled from the spec: Ksck::VerifyTablet is declared at ksck.h:335
but defined in ksck.cc, which is not among the sources. Per spec
section 4.3 item 4, a tablet verifies iff its replica count equals the
table's configured replication factor and exactly one of its replicas
is flagged leader. -/
def VerifyTablet (tablet : KsckTablet) (table_num_replicas : Int) : Bool :=
  ((tablet.replicas.length : Int) == table_num_replicas) &&
  ((tablet.replicas.filter (fun r => r.is_leader)).length == 1)

/-- Modelled from the spec: the inconsistent tablets of one table — the
table-level findings accumulated by Ksck::VerifyTable /
CheckTablesConsistency (ksck.h:308-311, body in ksck.cc): every tablet
failing VerifyTablet against the table's replication factor. -/
def tableFindings (table : KsckTable) : List KsckTablet :=
  table.tablets.filter (fun t => !VerifyTablet t table.num_replicas)

/-- Modelled from the spec: Ksck::VerifyTable (ksck.h:331, body in
ksck.cc) holds iff every tablet of the table verifies. -/
def VerifyTable (table : KsckTable) : Bool :=
  table.tablets.all (fun t => VerifyTablet t table.num_replicas)

/-- Modelled from the spec: Ksck::CheckTablesConsistency (ksck.h:308-311,
body in ksck.cc) walks the cached tables applying VerifyTable; the
cluster is consistent iff every table is. -/
def CheckTablesConsistency (tables : List KsckTable) : Bool :=
  tables.all VerifyTable

/-! ## Checker: checksum scan -/

/-- Modelled from the spec: the tablet working-set selection of
Ksck::ChecksumData (doc comment ksck.h:313-317, body in ksck.cc). A
tablet of table tbl passes the filters iff the tables filter is empty
or names tbl, and the tablets filter is empty or names the tablet's id
(an empty filter imposes no restriction). -/
def tabletSelected (tableNames tabletIds : List String)
    (tbl : KsckTable) (t : KsckTablet) : Bool :=
  (tableNames.isEmpty || tableNames.contains tbl.name) &&
  (tabletIds.isEmpty || tabletIds.contains t.id)

/-- Modelled from the spec: the working set of Ksck::ChecksumData — all
tablets of all cluster tables passing both filters. -/
def selectTablets (tables : List KsckTable) (tableNames tabletIds : List String) :
    List KsckTablet :=
  tables.flatMap (fun tbl => tbl.tablets.filter (tabletSelected tableNames tabletIds tbl))

/-- All tablets of the cluster, in table order. -/
def allTablets (tables : List KsckTable) : List KsckTablet :=
  tables.flatMap (fun tbl => tbl.tablets)

/-- Modelled from the spec: num_expected_replicas of ChecksumData — the
sum of replica counts across the selected tablets (spec section 4.3
item 5). -/
def numExpectedReplicas (selected : List KsckTablet) : Nat :=
  (selected.map (fun t => t.replicas.length)).sum

/-- The environment's synchronous answer of one tablet server's
RunTabletChecksumScanAsync (ksck.h:190-193) for one (tablet, replica)
pair: none means the call returned OK (the peer will eventually call
back into the reporter); some status means the call failed
synchronously and no callback will occur. -/
abbrev ScanBehavior := String → String → Option Status

/-- One RunTabletChecksumScanAsync invocation, as seen by the caller:
when the call fails synchronously the caller itself records the
failure into the reporter via ReportError, since the peer will never
call back (ksck.h:187-189, spec section 4.3 item 5); an accepted scan
leaves the reporter untouched (its callback arrives later as a
ReportEvent). -/
def scanReplica (behavior : ScanBehavior) (tablet_id : String)
    (r : ChecksumResultReporter) (rep : KsckTabletReplica) : ChecksumResultReporter :=
  match behavior tablet_id rep.ts_uuid with
  | none => r
  | some st => ReportError r tablet_id rep.ts_uuid st

/-- Issue the scans of all replicas of one tablet. -/
def scanTablet (behavior : ScanBehavior) (r : ChecksumResultReporter)
    (t : KsckTablet) : ChecksumResultReporter :=
  t.replicas.foldl (scanReplica behavior t.id) r

/-- Modelled from the spec: the scan-issuing loop of Ksck::ChecksumData
(body in ksck.cc). For every (tablet, replica) pair of the working set
it invokes RunTabletChecksumScanAsync, recording every synchronous
rejection into the reporter itself. -/
def issueScans (behavior : ScanBehavior) (selected : List KsckTablet)
    (r : ChecksumResultReporter) : ChecksumResultReporter :=
  selected.foldl (scanTablet behavior) r

/-- The number of replicas of one tablet whose scan the environment
rejects synchronously. -/
def tabletRejected (behavior : ScanBehavior) (t : KsckTablet) : Nat :=
  (t.replicas.filter (fun rep => (behavior t.id rep.ts_uuid).isSome)).length

/-- The total number of synchronously rejected scans over the working
set. -/
def rejectedCount (behavior : ScanBehavior) (selected : List KsckTablet) : Nat :=
  (selected.map (tabletRejected behavior)).sum

/-- The key of one report event. -/
def eventKey : ReportEvent → String × String
  | .result tablet_id replica_uuid _ => (tablet_id, replica_uuid)
  | .err tablet_id replica_uuid _ => (tablet_id, replica_uuid)

/-- The result-map entry one report event writes. -/
def entryOf : ReportEvent → (String × String) × ResultPair
  | .result tablet_id replica_uuid checksum => ((tablet_id, replica_uuid), (.ok, checksum))
  | .err tablet_id replica_uuid status => ((tablet_id, replica_uuid), (status, 0))

/-- The successful checksums recorded for one tablet: the checksum
components of the OK entries of the result map whose key names that
tablet. -/
def tabletChecksums (m : TabletResultMap) (tablet_id : String) : List Nat :=
  (m.filter (fun e => e.1.1 == tablet_id && e.2.1.isOK)).map (fun e => e.2.2)

/-- A list of checksums diverges iff it holds two distinct values. -/
def divergent (cs : List Nat) : Bool :=
  cs.any (fun c1 => cs.any (fun c2 => !(c1 == c2)))

/-- Modelled from the spec: the per-tablet comparison of
Ksck::ChecksumData (body in ksck.cc): any divergence among a tablet's
reported checksums is a consistency finding for that tablet (spec
section 4.3 item 5). -/
def divergenceFindings (selected : List KsckTablet) (m : TabletResultMap) :
    List String :=
  (selected.map (fun t => t.id)).filter (fun tid => divergent (tabletChecksums m tid))

/-- The outcome of one ChecksumData invocation: whether the wait
completed, the incompleteness finding when it did not, the snapshot of
collected results, and the divergence findings computed over that
snapshot. -/
structure ChecksumDataOutcome where
  complete : Bool
  incompleteFinding : Bool
  results : TabletResultMap
  divergences : List String
deriving DecidableEq, Repr

/-- Modelled from the spec: Ksck::ChecksumData (ksck.h:321-323, body in
ksck.cc). Selects the working set via the two filters, sizes one
reporter to the total replica count, issues every scan (recording
synchronous rejections itself), then the callbacks of the accepted
scans that arrived before the deadline (arrived) land in the reporter,
and it blocks on WaitFor with the given timeout. On timeout the partial
results are kept: the incompleteness is surfaced as a finding and the
comparison still runs over the snapshot collected so far (spec section
4.3 item 5, section 7). -/
def ChecksumData (tables : List KsckTable) (tableNames tabletIds : List String)
    (behavior : ScanBehavior) (arrived : List ReportEvent) (timeout : Nat) :
    ChecksumDataOutcome :=
  let selected := selectTablets tables tableNames tabletIds
  let r0 := mkReporter (numExpectedReplicas selected)
  let r1 := issueScans behavior selected r0
  let r2 := applyEvents r1 arrived
  let done := WaitFor r2 timeout
  { complete := done
    incompleteFinding := !done
    results := checksums r2
    divergences := divergenceFindings selected (checksums r2) }

/-- The reporter state at the end of one ChecksumData invocation: sized
to the selected replica total, after the scan-issuing loop and the
arrived callbacks. -/
def checksumReporter (tables : List KsckTable) (tableNames tabletIds : List String)
    (behavior : ScanBehavior) (arrived : List ReportEvent) : ChecksumResultReporter :=
  applyEvents
    (issueScans behavior (selectTablets tables tableNames tabletIds)
      (mkReporter (numExpectedReplicas (selectTablets tables tableNames tabletIds))))
    arrived

/-! ## Master retrieval contracts -/

/-- Modelled from the spec: a KsckMaster implementation's answers. The
retrieval methods are pure virtual (ksck.h:230, 234-235, 239); only
their contracts are in the header. Each field is the environment's
response for one call: tabletServersResp the tablet-server map keyed by
uuid, tablesResp the table list, tabletsResp the tablet list for a
given table name. -/
structure ModelMaster where
  tabletServersResp : Except Status (List (String × String))
  tablesResp : Except Status (List KsckTable)
  tabletsResp : String → Except Status (List KsckTablet)

/-- Modelled from the spec: KsckMaster::RetrieveTabletServers
(ksck.h:227-230). Stores the retrieved map into the passed map;
the passed map is only modified if the method returns OK. -/
def RetrieveTabletServers (m : ModelMaster) (tablet_servers : List (String × String)) :
    Status × List (String × String) :=
  match m.tabletServersResp with
  | .ok fetched => (.ok, fetched)
  | .error e => (e, tablet_servers)

/-- Modelled from the spec: KsckMaster::RetrieveTablesList
(ksck.h:232-235). Stores the retrieved list into the passed vector;
the vector is only modified if the method returns OK. -/
def RetrieveTablesList (m : ModelMaster) (tables : List KsckTable) :
    Status × List KsckTable :=
  match m.tablesResp with
  | .ok fetched => (.ok, fetched)
  | .error e => (e, tables)

/-- Modelled from the spec: KsckMaster::RetrieveTabletsList
(ksck.h:237-239). Stores the retrieved tablet list into the given
table via set_tablets; the table's tablet list is only modified if the
method returns OK. -/
def RetrieveTabletsList (m : ModelMaster) (table : KsckTable) :
    Status × KsckTable :=
  match m.tabletsResp table.name with
  | .ok fetched => (.ok, table.set_tablets fetched)
  | .error e => (e, table)

/-! ## Helper lemmas -/

/-- Each report call counts the latch down by exactly one. -/
theorem applyEvent_count (r : ChecksumResultReporter) (e : ReportEvent) :
    (applyEvent r e).responses_count = r.responses_count - 1 := by
  cases e <;> rfl

/-- Each report call pushes exactly its entry onto the result map. -/
theorem applyEvent_checksums (r : ChecksumResultReporter) (e : ReportEvent) :
    (applyEvent r e).checksums_ = entryOf e :: r.checksums_ := by
  cases e <;> rfl

theorem applyEvents_cons (r : ChecksumResultReporter) (e : ReportEvent)
    (es : List ReportEvent) :
    applyEvents r (e :: es) = applyEvents (applyEvent r e) es := rfl

/-- After a sequence of report calls the latch count is the initial
count minus the number of calls. -/
theorem applyEvents_count (es : List ReportEvent) (r : ChecksumResultReporter) :
    (applyEvents r es).responses_count = r.responses_count - es.length := by
  induction es generalizing r with
  | nil => rfl
  | cons e es ih =>
    rw [applyEvents_cons, ih, applyEvent_count]
    simp only [List.length_cons]
    omega

/-- Report calls never remove result-map entries. -/
theorem applyEvents_checksums_mono (es : List ReportEvent)
    (r : ChecksumResultReporter) (x : (String × String) × ResultPair)
    (hx : x ∈ r.checksums_) : x ∈ (applyEvents r es).checksums_ := by
  induction es generalizing r with
  | nil => exact hx
  | cons e es ih =>
    rw [applyEvents_cons]
    exact ih _ (by rw [applyEvent_checksums]; exact List.mem_cons_of_mem _ hx)

/-- Every report in a sequence of calls lands in the result map. -/
theorem applyEvents_mem_entry (es : List ReportEvent)
    (r : ChecksumResultReporter) (e : ReportEvent) (he : e ∈ es) :
    entryOf e ∈ (applyEvents r es).checksums_ := by
  induction es generalizing r with
  | nil => cases he
  | cons e0 es ih =>
    rw [applyEvents_cons]
    rcases List.mem_cons.mp he with h | h
    · subst h
      exact applyEvents_checksums_mono es _ _ (by rw [applyEvent_checksums]; exact List.mem_cons_self _ _)
    · exact ih _ h

/-- Issuing one replica's scan counts down iff the scan is rejected. -/
theorem scanReplica_count (behavior : ScanBehavior) (tablet_id : String)
    (r : ChecksumResultReporter) (rep : KsckTabletReplica) :
    (scanReplica behavior tablet_id r rep).responses_count =
      r.responses_count - (if (behavior tablet_id rep.ts_uuid).isSome then 1 else 0) := by
  cases h : behavior tablet_id rep.ts_uuid <;>
    simp [scanReplica, h, ReportError, HandleResponse]

theorem scanReplica_foldl_count (behavior : ScanBehavior) (tablet_id : String)
    (l : List KsckTabletReplica) (r : ChecksumResultReporter) :
    (l.foldl (scanReplica behavior tablet_id) r).responses_count =
      r.responses_count -
        (l.filter (fun rep => (behavior tablet_id rep.ts_uuid).isSome)).length := by
  induction l generalizing r with
  | nil => rfl
  | cons rep l ih =>
    rw [List.foldl_cons, ih, scanReplica_count]
    by_cases h : (behavior tablet_id rep.ts_uuid).isSome
    · simp only [List.filter_cons, h, if_pos, List.length_cons]
      omega
    · simp only [List.filter_cons, h, Bool.false_eq_true, if_neg, not_false_eq_true]
      omega

/-- Issuing one tablet's scans counts the latch down by the number of
synchronously rejected replicas of that tablet. -/
theorem scanTablet_count (behavior : ScanBehavior) (r : ChecksumResultReporter)
    (t : KsckTablet) :
    (scanTablet behavior r t).responses_count =
      r.responses_count - tabletRejected behavior t :=
  scanReplica_foldl_count behavior t.id t.replicas r

/-- Issuing the whole working set's scans counts the latch down by the
total number of synchronous rejections. -/
theorem issueScans_count (behavior : ScanBehavior) (selected : List KsckTablet)
    (r : ChecksumResultReporter) :
    (issueScans behavior selected r).responses_count =
      r.responses_count - rejectedCount behavior selected := by
  induction selected generalizing r with
  | nil => rfl
  | cons t ts ih =>
    show (issueScans behavior ts (scanTablet behavior r t)).responses_count = _
    rw [ih, scanTablet_count]
    simp [rejectedCount]
    omega

/-- Issuing scans never removes result-map entries. -/
theorem scanReplica_checksums_mono (behavior : ScanBehavior) (tablet_id : String)
    (r : ChecksumResultReporter) (rep : KsckTabletReplica)
    (x : (String × String) × ResultPair) (hx : x ∈ r.checksums_) :
    x ∈ (scanReplica behavior tablet_id r rep).checksums_ := by
  cases h : behavior tablet_id rep.ts_uuid with
  | none => simpa [scanReplica, h] using hx
  | some st =>
    simp only [scanReplica, h, ReportError, HandleResponse]
    exact List.mem_cons_of_mem _ hx

theorem scanReplica_foldl_checksums_mono (behavior : ScanBehavior) (tablet_id : String)
    (l : List KsckTabletReplica) (r : ChecksumResultReporter)
    (x : (String × String) × ResultPair) (hx : x ∈ r.checksums_) :
    x ∈ (l.foldl (scanReplica behavior tablet_id) r).checksums_ := by
  induction l generalizing r with
  | nil => exact hx
  | cons rep l ih =>
    exact ih _ (scanReplica_checksums_mono behavior tablet_id r rep x hx)

theorem issueScans_checksums_mono (behavior : ScanBehavior)
    (selected : List KsckTablet) (r : ChecksumResultReporter)
    (x : (String × String) × ResultPair) (hx : x ∈ r.checksums_) :
    x ∈ (issueScans behavior selected r).checksums_ := by
  induction selected generalizing r with
  | nil => exact hx
  | cons t ts ih =>
    exact ih _ (scanReplica_foldl_checksums_mono behavior t.id t.replicas r x hx)

/-- Folding the replica scans of one tablet records every rejected
member of the list as an error entry. -/
theorem scanReplica_foldl_records (behavior : ScanBehavior) (tablet_id : String)
    (rep : KsckTabletReplica) (st : Status)
    (hrej : behavior tablet_id rep.ts_uuid = some st) :
    ∀ (l : List KsckTabletReplica) (r : ChecksumResultReporter), rep ∈ l →
      ((tablet_id, rep.ts_uuid), (st, 0)) ∈
        (l.foldl (scanReplica behavior tablet_id) r).checksums_ := by
  intro l
  induction l with
  | nil => intro r h; cases h
  | cons rep0 l ih =>
    intro r h
    rw [List.foldl_cons]
    rcases List.mem_cons.mp h with h | h
    · subst h
      refine scanReplica_foldl_checksums_mono behavior tablet_id l _ _ ?_
      simp [scanReplica, hrej, ReportError, HandleResponse]
    · exact ih _ h

/-- Every synchronous rejection of a tablet's replicas is recorded as an
error entry by the scan-issuing loop. -/
theorem scanTablet_records (behavior : ScanBehavior) (r : ChecksumResultReporter)
    (t : KsckTablet) (rep : KsckTabletReplica) (st : Status)
    (hrep : rep ∈ t.replicas) (hrej : behavior t.id rep.ts_uuid = some st) :
    ((t.id, rep.ts_uuid), (st, 0)) ∈ (scanTablet behavior r t).checksums_ :=
  scanReplica_foldl_records behavior t.id rep st hrej t.replicas r hrep

/-- Every synchronous rejection over the working set is recorded as an
error entry by the scan-issuing loop. -/
theorem issueScans_records (behavior : ScanBehavior) (t : KsckTablet)
    (rep : KsckTabletReplica) (st : Status) (hrep : rep ∈ t.replicas)
    (hrej : behavior t.id rep.ts_uuid = some st) :
    ∀ (selected : List KsckTablet) (r : ChecksumResultReporter), t ∈ selected →
      ((t.id, rep.ts_uuid), (st, 0)) ∈ (issueScans behavior selected r).checksums_ := by
  intro selected
  induction selected with
  | nil => intro r ht; cases ht
  | cons t0 ts ih =>
    intro r ht
    show _ ∈ (issueScans behavior ts (scanTablet behavior r t0)).checksums_
    rcases List.mem_cons.mp ht with h | h
    · subst h
      exact issueScans_checksums_mono behavior ts _ _
        (scanTablet_records behavior r t rep st hrep hrej)
    · exact ih _ h

/-- A successful entry of the result map contributes its checksum to its
tablet's checksum list. -/
theorem tabletChecksums_mem (m : TabletResultMap) (tablet_id replica_uuid : String)
    (c : Nat) (hm : ((tablet_id, replica_uuid), (Status.ok, c)) ∈ m) :
    c ∈ tabletChecksums m tablet_id := by
  refine List.mem_map.mpr ⟨((tablet_id, replica_uuid), (Status.ok, c)), ?_, rfl⟩
  refine List.mem_filter.mpr ⟨hm, ?_⟩
  simp [Status.isOK]

/-- A checksum list with two distinct members diverges. -/
theorem divergent_of_ne (cs : List Nat) (c1 c2 : Nat) (h1 : c1 ∈ cs)
    (h2 : c2 ∈ cs) (hne : c1 ≠ c2) : divergent cs = true := by
  simp only [divergent, List.any_eq_true]
  exact ⟨c1, h1, c2, h2, by simp [hne]⟩

/-- A checksum list whose members all equal one value does not diverge. -/
theorem divergent_eq_false (cs : List Nat) (v : Nat)
    (hall : ∀ c ∈ cs, c = v) : divergent cs = false := by
  simp only [divergent, List.any_eq_false]
  intro c1 h1 hany
  rcases List.any_eq_true.mp hany with ⟨c2, h2, hne⟩
  simp [hall c1 h1, hall c2 h2] at hne

/-! ## Claim theorems -/

/-- C7: the master retrieval operations are atomic: RetrieveTabletServers
modifies the passed tablet-server map only when it returns OK,
RetrieveTablesList modifies the passed table vector only when it
returns OK, and RetrieveTabletsList modifies the given table's tablet
list only when it returns OK; on any error return the respective
output structure is unchanged. -/
theorem retrieve_atomicity (m : ModelMaster)
    (tablet_servers : List (String × String)) (tables : List KsckTable)
    (table : KsckTable) :
    ((RetrieveTabletServers m tablet_servers).1 ≠ Status.ok →
      (RetrieveTabletServers m tablet_servers).2 = tablet_servers)
    ∧ ((RetrieveTablesList m tables).1 ≠ Status.ok →
      (RetrieveTablesList m tables).2 = tables)
    ∧ ((RetrieveTabletsList m table).1 ≠ Status.ok →
      (RetrieveTabletsList m table).2 = table) := by
  refine ⟨?_, ?_, ?_⟩
  · intro h
    cases hm : m.tabletServersResp with
    | ok fetched => exact absurd (by simp [RetrieveTabletServers, hm]) h
    | error e => simp [RetrieveTabletServers, hm]
  · intro h
    cases hm : m.tablesResp with
    | ok fetched => exact absurd (by simp [RetrieveTablesList, hm]) h
    | error e => simp [RetrieveTablesList, hm]
  · intro h
    cases hm : m.tabletsResp table.name with
    | ok fetched => exact absurd (by simp [RetrieveTabletsList, hm]) h
    | error e => simp [RetrieveTabletsList, hm]

/-- Witness for retrieve_atomicity: a master whose three retrievals all
fail leaves a concrete map, vector and table untouched. -/
theorem retrieve_atomicity_witness :
    (RetrieveTabletServers
        ⟨Except.error (Status.error "down"), Except.error (Status.error "down"),
          fun _ => Except.error (Status.error "down")⟩
        [("u1", "u1")]).2 = [("u1", "u1")]
    ∧ (RetrieveTablesList
        ⟨Except.error (Status.error "down"), Except.error (Status.error "down"),
          fun _ => Except.error (Status.error "down")⟩
        []).2 = []
    ∧ (RetrieveTabletsList
        ⟨Except.error (Status.error "down"), Except.error (Status.error "down"),
          fun _ => Except.error (Status.error "down")⟩
        ⟨"T", "s", 3, []⟩).2 = ⟨"T", "s", 3, []⟩ := by
  have h := retrieve_atomicity
    ⟨Except.error (Status.error "down"), Except.error (Status.error "down"),
      fun _ => Except.error (Status.error "down")⟩
    [("u1", "u1")] [] ⟨"T", "s", 3, []⟩
  exact ⟨h.1 (by decide), h.2.1 (by decide), h.2.2 (by decide)⟩

/-- C8: EnsureConnected is idempotent for peers: when IsConnected is
true it returns OK with the peer untouched (no Connect call); when
IsConnected is false it returns exactly the result of Connect; and
after a successful Connect, two successive EnsureConnected calls both
return OK, leave the state unchanged and perform no further Connect
call (the connect-call count stays put). -/
theorem ensure_connected_idempotent (outcome outcome2 : Status) (p : PeerState) :
    (IsConnected p = true → EnsureConnected outcome p = (Status.ok, p))
    ∧ (IsConnected p = false → EnsureConnected outcome p = Connect outcome p)
    ∧ ((EnsureConnected outcome (Connect Status.ok p).2).1 = Status.ok
      ∧ (EnsureConnected outcome (Connect Status.ok p).2).2 = (Connect Status.ok p).2
      ∧ (EnsureConnected outcome2 (EnsureConnected outcome (Connect Status.ok p).2).2).1
          = Status.ok
      ∧ (EnsureConnected outcome2 (EnsureConnected outcome (Connect Status.ok p).2).2).2.connect_calls
          = (Connect Status.ok p).2.connect_calls) := by
  refine ⟨fun h => ?_, fun h => ?_, ?_⟩
  · simp [EnsureConnected, h]
  · simp [EnsureConnected, h]
  · simp [EnsureConnected, IsConnected, Connect, Status.isOK]

/-- Witness for ensure_connected_idempotent at the initial (unconnected)
peer state. -/
theorem ensure_connected_idempotent_witness :
    EnsureConnected (Status.error "e") PeerState.init
      = Connect (Status.error "e") PeerState.init
    ∧ (EnsureConnected (Status.error "e")
        (Connect Status.ok PeerState.init).2).1 = Status.ok
    ∧ (EnsureConnected (Status.error "f")
        (EnsureConnected (Status.error "e")
          (Connect Status.ok PeerState.init).2).2).1 = Status.ok := by
  have h := ensure_connected_idempotent (Status.error "e") (Status.error "f") PeerState.init
  exact ⟨h.2.1 rfl, h.2.2.1, h.2.2.2.2.1⟩

/-- C9: a table's name, schema and replication factor are unchanged by
set_tablets, set_tablets installs exactly the given tablet sequence and
a second call replaces (not merges with) the first; likewise a tablet's
id is unchanged by set_replicas and set_replicas replaces the replica
list with exactly the given sequence. -/
theorem table_fields_immutable_set_replaces (tbl : KsckTable)
    (ts1 ts2 : List KsckTablet) (t : KsckTablet)
    (rs1 rs2 : List KsckTabletReplica) :
    (tbl.set_tablets ts1).name = tbl.name
    ∧ (tbl.set_tablets ts1).schema = tbl.schema
    ∧ (tbl.set_tablets ts1).num_replicas = tbl.num_replicas
    ∧ (tbl.set_tablets ts1).tablets = ts1
    ∧ ((tbl.set_tablets ts1).set_tablets ts2).tablets = ts2
    ∧ (t.set_replicas rs1).id = t.id
    ∧ (t.set_replicas rs1).replicas = rs1
    ∧ ((t.set_replicas rs1).set_replicas rs2).replicas = rs2 :=
  ⟨rfl, rfl, rfl, rfl, rfl, rfl, rfl, rfl⟩

/-- C10: ReportError stores the non-OK status paired with checksum 0 and
ReportResult stores Status.ok paired with the reported checksum; a
successful checksum of 0 is value-identical in its checksum field to an
error entry's, so only the stored Status distinguishes them. -/
theorem report_entry_shapes (r : ChecksumResultReporter)
    (tablet_id replica_uuid : String) (st : Status) (c : Nat) :
    checksums (ReportError r tablet_id replica_uuid st)
      = ((tablet_id, replica_uuid), (st, 0)) :: checksums r
    ∧ checksums (ReportResult r tablet_id replica_uuid c)
      = ((tablet_id, replica_uuid), (Status.ok, c)) :: checksums r
    ∧ (st ≠ Status.ok →
      ∃ e1 ∈ checksums (ReportResult r tablet_id replica_uuid 0),
        ∃ e2 ∈ checksums (ReportError r tablet_id replica_uuid st),
          e1.2.2 = e2.2.2 ∧ e1.2.1 ≠ e2.2.1) := by
  refine ⟨rfl, rfl, fun hst => ?_⟩
  refine ⟨((tablet_id, replica_uuid), (Status.ok, 0)), List.mem_cons_self _ _,
    ((tablet_id, replica_uuid), (st, 0)), List.mem_cons_self _ _, rfl, ?_⟩
  exact fun h => hst h.symm

/-- Witness for report_entry_shapes at a concrete reporter and error. -/
theorem report_entry_shapes_witness :
    checksums (ReportError (mkReporter 2) "tab" "a" (Status.error "boom"))
      = (("tab", "a"), (Status.error "boom", 0)) :: checksums (mkReporter 2)
    ∧ ∃ e1 ∈ checksums (ReportResult (mkReporter 2) "tab" "a" 0),
        ∃ e2 ∈ checksums (ReportError (mkReporter 2) "tab" "a" (Status.error "boom")),
          e1.2.2 = e2.2.2 ∧ e1.2.1 ≠ e2.2.1 := by
  have h := report_entry_shapes (mkReporter 2) "tab" "a" (Status.error "boom") 0
  exact ⟨h.1, h.2.2 (by decide)⟩

/-- C1: for a table with replication factor R, a tablet with exactly R
replicas of which exactly one is flagged leader verifies consistent and
is absent from the table-level findings; a tablet whose replica count
differs from R, or with zero or more than one leader, fails
verification, appears in the table-level findings, and makes
CheckTablesConsistency report any cluster containing its table
inconsistent. -/
theorem tables_consistency_verdict (R : Int) (table : KsckTable)
    (tablet : KsckTablet) (hR : table.num_replicas = R)
    (hmem : tablet ∈ table.tablets) :
    (((tablet.replicas.length : Int) = R
        ∧ (tablet.replicas.filter (fun rep => rep.is_leader)).length = 1) →
      VerifyTablet tablet R = true ∧ tablet ∉ tableFindings table)
    ∧ (((tablet.replicas.length : Int) ≠ R
        ∨ (tablet.replicas.filter (fun rep => rep.is_leader)).length ≠ 1) →
      VerifyTablet tablet R = false ∧ tablet ∈ tableFindings table
        ∧ ∀ cluster : List KsckTable, table ∈ cluster →
            CheckTablesConsistency cluster = false) := by
  constructor
  · rintro ⟨h1, h2⟩
    have hv : VerifyTablet tablet R = true := by
      simp [VerifyTablet, h1, h2]
    refine ⟨hv, fun hin => ?_⟩
    have := (List.mem_filter.mp hin).2
    rw [hR] at this
    simp [hv] at this
  · intro h
    have hv : VerifyTablet tablet R = false := by
      rcases h with h | h
      · simp [VerifyTablet, h]
      · simp [VerifyTablet, h]
    have hfind : tablet ∈ tableFindings table :=
      List.mem_filter.mpr ⟨hmem, by rw [hR]; simp [hv]⟩
    refine ⟨hv, hfind, fun cluster hcl => ?_⟩
    have htab : VerifyTable table = false := by
      simp only [VerifyTable, List.all_eq_false]
      exact ⟨tablet, hmem, by rw [hR]; simp [hv]⟩
    simp only [CheckTablesConsistency, List.all_eq_false]
    exact ⟨table, hcl, by simp [htab]⟩

/-- Witness for tables_consistency_verdict: a 3-replica tablet with one
leader under replication factor 3 is consistent, and a 2-replica tablet
under the same factor lands in the findings. -/
theorem tables_consistency_verdict_witness :
    (VerifyTablet
        ⟨"tab", [⟨"ts1", true, false⟩, ⟨"ts2", false, true⟩, ⟨"ts3", false, true⟩]⟩ 3 = true
      ∧ (⟨"tab", [⟨"ts1", true, false⟩, ⟨"ts2", false, true⟩, ⟨"ts3", false, true⟩]⟩ : KsckTablet)
          ∉ tableFindings
              ⟨"T", "s", 3,
                [⟨"tab", [⟨"ts1", true, false⟩, ⟨"ts2", false, true⟩, ⟨"ts3", false, true⟩]⟩]⟩)
    ∧ (VerifyTablet ⟨"tab2", [⟨"ts1", true, false⟩, ⟨"ts2", false, true⟩]⟩ 3 = false
      ∧ (⟨"tab2", [⟨"ts1", true, false⟩, ⟨"ts2", false, true⟩]⟩ : KsckTablet)
          ∈ tableFindings
              ⟨"U", "s", 3, [⟨"tab2", [⟨"ts1", true, false⟩, ⟨"ts2", false, true⟩]⟩]⟩
      ∧ CheckTablesConsistency
          [⟨"U", "s", 3, [⟨"tab2", [⟨"ts1", true, false⟩, ⟨"ts2", false, true⟩]⟩]⟩] = false) := by
  have hgood := tables_consistency_verdict 3
    ⟨"T", "s", 3,
      [⟨"tab", [⟨"ts1", true, false⟩, ⟨"ts2", false, true⟩, ⟨"ts3", false, true⟩]⟩]⟩
    ⟨"tab", [⟨"ts1", true, false⟩, ⟨"ts2", false, true⟩, ⟨"ts3", false, true⟩]⟩
    rfl (by decide)
  have hbad := tables_consistency_verdict 3
    ⟨"U", "s", 3, [⟨"tab2", [⟨"ts1", true, false⟩, ⟨"ts2", false, true⟩]⟩]⟩
    ⟨"tab2", [⟨"ts1", true, false⟩, ⟨"ts2", false, true⟩]⟩
    rfl (by decide)
  have h1 := hgood.1 (by constructor <;> decide)
  have h2 := hbad.2 (Or.inl (by decide))
  exact ⟨⟨h1.1, h1.2⟩, h2.1, h2.2.1, h2.2.2 _ (by decide)⟩

/-- C2: for a reporter constructed with N expected replicas, after any
sequence of fewer than N ReportResult / ReportError calls on distinct
(tablet, replica) pairs AllReported is false and a zero-timeout WaitFor
returns false; after exactly N such calls, in any mix and any order,
AllReported is true and WaitFor returns true. -/
theorem reporter_countdown (N : Nat) (es : List ReportEvent)
    (_hdistinct : (es.map eventKey).Nodup) :
    (es.length < N →
      AllReported (applyEvents (mkReporter N) es) = false
        ∧ WaitFor (applyEvents (mkReporter N) es) 0 = false)
    ∧ (es.length = N →
      AllReported (applyEvents (mkReporter N) es) = true
        ∧ ∀ timeout : Nat, WaitFor (applyEvents (mkReporter N) es) timeout = true) := by
  have hc : (applyEvents (mkReporter N) es).responses_count = N - es.length :=
    applyEvents_count es (mkReporter N)
  constructor
  · intro hlt
    have hne : N - es.length ≠ 0 := by omega
    constructor
    · simp [AllReported, hc, hne]
    · simp [WaitFor, hc, hne]
  · intro heq
    constructor
    · simp [AllReported, hc, heq]
    · intro timeout
      simp [WaitFor, hc, heq]

/-- Witness for reporter_countdown: two reports on distinct pairs fill a
reporter expecting two replicas. -/
theorem reporter_countdown_witness :
    AllReported (applyEvents (mkReporter 2)
      [ReportEvent.result "tab" "a" 5, ReportEvent.err "tab" "b" (Status.error "x")]) = true
    ∧ WaitFor (applyEvents (mkReporter 2)
      [ReportEvent.result "tab" "a" 5, ReportEvent.err "tab" "b" (Status.error "x")]) 0 = true := by
  have h := (reporter_countdown 2
    [ReportEvent.result "tab" "a" 5, ReportEvent.err "tab" "b" (Status.error "x")]
    (by decide)).2 rfl
  exact ⟨h.1, h.2 0⟩

/-- C3: ChecksumData's tablet selection: with both filters empty every
tablet in the cluster is selected; in general a tablet is selected iff
it belongs to a cluster table passing the tables filter and itself
passes the tablets filter, where an empty filter imposes no
restriction; with both non-empty, exactly the tablets that are both in
a named table and explicitly named; with only one non-empty, that
filter alone restricts the set. -/
theorem checksum_data_selection (tables : List KsckTable)
    (tableNames tabletIds : List String) :
    selectTablets tables [] [] = allTablets tables
    ∧ (∀ t : KsckTablet, t ∈ selectTablets tables tableNames tabletIds ↔
        ∃ tbl ∈ tables, t ∈ tbl.tablets
          ∧ (tableNames = [] ∨ tbl.name ∈ tableNames)
          ∧ (tabletIds = [] ∨ t.id ∈ tabletIds))
    ∧ (tableNames ≠ [] → tabletIds ≠ [] →
        ∀ t : KsckTablet, t ∈ selectTablets tables tableNames tabletIds ↔
          ∃ tbl ∈ tables, t ∈ tbl.tablets ∧ tbl.name ∈ tableNames ∧ t.id ∈ tabletIds)
    ∧ (tableNames ≠ [] →
        ∀ t : KsckTablet, t ∈ selectTablets tables tableNames [] ↔
          ∃ tbl ∈ tables, t ∈ tbl.tablets ∧ tbl.name ∈ tableNames)
    ∧ (tabletIds ≠ [] →
        ∀ t : KsckTablet, t ∈ selectTablets tables [] tabletIds ↔
          ∃ tbl ∈ tables, t ∈ tbl.tablets ∧ t.id ∈ tabletIds) := by
  have hchar : ∀ (ns ids : List String) (t : KsckTablet),
      t ∈ selectTablets tables ns ids ↔
        ∃ tbl ∈ tables, t ∈ tbl.tablets
          ∧ (ns = [] ∨ tbl.name ∈ ns) ∧ (ids = [] ∨ t.id ∈ ids) := by
    intro ns ids t
    simp [selectTablets, List.mem_flatMap, List.mem_filter, tabletSelected,
      List.isEmpty_iff]
  refine ⟨?_, hchar tableNames tabletIds, ?_, ?_, ?_⟩
  · have hall : ∀ tbl : KsckTable,
        List.filter (tabletSelected [] [] tbl) tbl.tablets = tbl.tablets := by
      intro tbl
      apply List.filter_eq_self.mpr
      intro a _
      simp [tabletSelected]
    simp only [selectTablets, allTablets, hall]
  · intro hns hids t
    rw [hchar]
    constructor
    · rintro ⟨tbl, htbl, hmem, h1, h2⟩
      exact ⟨tbl, htbl, hmem, h1.resolve_left hns, h2.resolve_left hids⟩
    · rintro ⟨tbl, htbl, hmem, h1, h2⟩
      exact ⟨tbl, htbl, hmem, Or.inr h1, Or.inr h2⟩
  · intro hns t
    rw [hchar]
    constructor
    · rintro ⟨tbl, htbl, hmem, h1, _⟩
      exact ⟨tbl, htbl, hmem, h1.resolve_left hns⟩
    · rintro ⟨tbl, htbl, hmem, h1⟩
      exact ⟨tbl, htbl, hmem, Or.inr h1, Or.inl rfl⟩
  · intro hids t
    rw [hchar]
    constructor
    · rintro ⟨tbl, htbl, hmem, _, h2⟩
      exact ⟨tbl, htbl, hmem, h2.resolve_left hids⟩
    · rintro ⟨tbl, htbl, hmem, h2⟩
      exact ⟨tbl, htbl, hmem, Or.inl rfl, Or.inr h2⟩

/-- Witness for checksum_data_selection on a two-table cluster: empty
filters select everything, and the intersection of naming table T1 and
tablet a selects tablet a. -/
theorem checksum_data_selection_witness :
    selectTablets
      [⟨"T1", "s", 1, [⟨"a", []⟩, ⟨"b", []⟩]⟩, ⟨"T2", "s", 1, [⟨"c", []⟩]⟩] [] []
      = allTablets
          [⟨"T1", "s", 1, [⟨"a", []⟩, ⟨"b", []⟩]⟩, ⟨"T2", "s", 1, [⟨"c", []⟩]⟩]
    ∧ (⟨"a", []⟩ : KsckTablet) ∈ selectTablets
        [⟨"T1", "s", 1, [⟨"a", []⟩, ⟨"b", []⟩]⟩, ⟨"T2", "s", 1, [⟨"c", []⟩]⟩]
        ["T1"] ["a", "c"] := by
  have h := checksum_data_selection
    [⟨"T1", "s", 1, [⟨"a", []⟩, ⟨"b", []⟩]⟩, ⟨"T2", "s", 1, [⟨"c", []⟩]⟩]
    ["T1"] ["a", "c"]
  refine ⟨h.1, ?_⟩
  exact (h.2.2.1 (by decide) (by decide) ⟨"a", []⟩).mpr
    ⟨⟨"T1", "s", 1, [⟨"a", []⟩, ⟨"b", []⟩]⟩, by decide, by decide, by decide, by decide⟩

/-- Unfolding equation for ChecksumData. -/
theorem ChecksumData_eq (tables : List KsckTable) (tableNames tabletIds : List String)
    (behavior : ScanBehavior) (arrived : List ReportEvent) (timeout : Nat) :
    ChecksumData tables tableNames tabletIds behavior arrived timeout =
      { complete := WaitFor (checksumReporter tables tableNames tabletIds behavior arrived) timeout
        incompleteFinding :=
          !WaitFor (checksumReporter tables tableNames tabletIds behavior arrived) timeout
        results := checksums (checksumReporter tables tableNames tabletIds behavior arrived)
        divergences :=
          divergenceFindings (selectTablets tables tableNames tabletIds)
            (checksums (checksumReporter tables tableNames tabletIds behavior arrived)) } :=
  rfl

/-- The latch count of the end-of-invocation reporter. -/
theorem checksumReporter_count (tables : List KsckTable)
    (tableNames tabletIds : List String) (behavior : ScanBehavior)
    (arrived : List ReportEvent) :
    (checksumReporter tables tableNames tabletIds behavior arrived).responses_count =
      numExpectedReplicas (selectTablets tables tableNames tabletIds)
        - rejectedCount behavior (selectTablets tables tableNames tabletIds)
        - arrived.length := by
  unfold checksumReporter
  rw [applyEvents_count, issueScans_count]
  rfl

/-- C4: for every tablet of ChecksumData's working set, two replicas
reporting distinct checksums yield a divergence finding for that
tablet, and all reported checksums agreeing yield no divergence finding
for it. -/
theorem checksum_divergence_findings (tables : List KsckTable)
    (tableNames tabletIds : List String) (behavior : ScanBehavior)
    (arrived : List ReportEvent) (timeout : Nat) (t : KsckTablet)
    (ht : t ∈ selectTablets tables tableNames tabletIds) :
    (∀ u1 u2 c1 c2,
      ReportEvent.result t.id u1 c1 ∈ arrived →
      ReportEvent.result t.id u2 c2 ∈ arrived →
      c1 ≠ c2 →
      t.id ∈ (ChecksumData tables tableNames tabletIds behavior arrived timeout).divergences)
    ∧ (∀ v : Nat,
      (∀ c ∈ tabletChecksums
          (ChecksumData tables tableNames tabletIds behavior arrived timeout).results t.id,
        c = v) →
      t.id ∉ (ChecksumData tables tableNames tabletIds behavior arrived timeout).divergences) := by
  rw [ChecksumData_eq]
  constructor
  · intro u1 u2 c1 c2 he1 he2 hne
    have m1 : ((t.id, u1), (Status.ok, c1)) ∈
        (checksumReporter tables tableNames tabletIds behavior arrived).checksums_ :=
      applyEvents_mem_entry arrived _ (ReportEvent.result t.id u1 c1) he1
    have m2 : ((t.id, u2), (Status.ok, c2)) ∈
        (checksumReporter tables tableNames tabletIds behavior arrived).checksums_ :=
      applyEvents_mem_entry arrived _ (ReportEvent.result t.id u2 c2) he2
    have hc1 := tabletChecksums_mem _ t.id u1 c1 m1
    have hc2 := tabletChecksums_mem _ t.id u2 c2 m2
    have hdiv := divergent_of_ne _ c1 c2 hc1 hc2 hne
    exact List.mem_filter.mpr ⟨List.mem_map_of_mem _ ht, hdiv⟩
  · intro v hall hin
    have hmemf := List.mem_filter.mp hin
    have hfalse := divergent_eq_false _ v hall
    rw [hfalse] at hmemf
    exact absurd hmemf.2 (by simp)

/-- Witness for checksum_divergence_findings: two replicas of one tablet
reporting 1 and 2 produce a divergence finding for it. -/
theorem checksum_divergence_findings_witness :
    "tab" ∈ (ChecksumData
      [⟨"T", "s", 2, [⟨"tab", [⟨"a", true, false⟩, ⟨"b", false, true⟩]⟩]⟩] [] []
      (fun _ _ => none)
      [ReportEvent.result "tab" "a" 1, ReportEvent.result "tab" "b" 2] 0).divergences := by
  have h := checksum_divergence_findings
    [⟨"T", "s", 2, [⟨"tab", [⟨"a", true, false⟩, ⟨"b", false, true⟩]⟩]⟩] [] []
    (fun _ _ => none)
    [ReportEvent.result "tab" "a" 1, ReportEvent.result "tab" "b" 2] 0
    ⟨"tab", [⟨"a", true, false⟩, ⟨"b", false, true⟩]⟩ (by decide)
  exact h.1 "a" "b" 1 2 (by decide) (by decide) (by decide)

/-- C5: when the deadline expires before all expected results arrive,
ChecksumData reports incomplete collection but keeps the partial
results: every entry reported before the timeout is still in the
snapshot returned through checksums, and the divergence comparison
still runs over that partial snapshot. -/
theorem checksum_timeout_keeps_partial (tables : List KsckTable)
    (tableNames tabletIds : List String) (behavior : ScanBehavior)
    (arrived : List ReportEvent) (timeout : Nat)
    (hshort : rejectedCount behavior (selectTablets tables tableNames tabletIds)
        + arrived.length
      < numExpectedReplicas (selectTablets tables tableNames tabletIds)) :
    (ChecksumData tables tableNames tabletIds behavior arrived timeout).complete = false
    ∧ (ChecksumData tables tableNames tabletIds behavior arrived timeout).incompleteFinding
        = true
    ∧ (∀ e ∈ arrived, entryOf e ∈
        (ChecksumData tables tableNames tabletIds behavior arrived timeout).results)
    ∧ (ChecksumData tables tableNames tabletIds behavior arrived timeout).divergences
        = divergenceFindings (selectTablets tables tableNames tabletIds)
            (ChecksumData tables tableNames tabletIds behavior arrived timeout).results := by
  rw [ChecksumData_eq]
  have hcount := checksumReporter_count tables tableNames tabletIds behavior arrived
  have hne : (checksumReporter tables tableNames tabletIds behavior arrived).responses_count
      ≠ 0 := by
    rw [hcount]; omega
  refine ⟨?_, ?_, ?_, rfl⟩
  · simp [WaitFor, hne]
  · simp [WaitFor, hne]
  · intro e he
    exact applyEvents_mem_entry arrived _ e he

/-- Witness for checksum_timeout_keeps_partial: one of two expected
replicas reports before the deadline; the report survives the timeout. -/
theorem checksum_timeout_keeps_partial_witness :
    (ChecksumData
        [⟨"T", "s", 2, [⟨"tab", [⟨"a", true, false⟩, ⟨"b", false, true⟩]⟩]⟩] [] []
        (fun _ _ => none) [ReportEvent.result "tab" "a" 7] 0).complete = false
    ∧ (ChecksumData
        [⟨"T", "s", 2, [⟨"tab", [⟨"a", true, false⟩, ⟨"b", false, true⟩]⟩]⟩] [] []
        (fun _ _ => none) [ReportEvent.result "tab" "a" 7] 0).incompleteFinding = true
    ∧ (("tab", "a"), (Status.ok, 7)) ∈ (ChecksumData
        [⟨"T", "s", 2, [⟨"tab", [⟨"a", true, false⟩, ⟨"b", false, true⟩]⟩]⟩] [] []
        (fun _ _ => none) [ReportEvent.result "tab" "a" 7] 0).results := by
  have h := checksum_timeout_keeps_partial
    [⟨"T", "s", 2, [⟨"tab", [⟨"a", true, false⟩, ⟨"b", false, true⟩]⟩]⟩] [] []
    (fun _ _ => none) [ReportEvent.result "tab" "a" 7] 0 (by decide)
  exact ⟨h.1, h.2.1, h.2.2.1 (ReportEvent.result "tab" "a" 7) (by decide)⟩

/-- C6: when RunTabletChecksumScanAsync rejects exactly one
(tablet, replica) pair synchronously and the other N-1 scans all report
back, ChecksumData itself records the rejection into the reporter (the
error entry is in the results), the countdown still reaches zero and
WaitFor returns true. -/
theorem sync_rejection_still_completes (tables : List KsckTable)
    (tableNames tabletIds : List String) (behavior : ScanBehavior)
    (arrived : List ReportEvent) (timeout : Nat)
    (hrej : rejectedCount behavior (selectTablets tables tableNames tabletIds) = 1)
    (harr : arrived.length
      = numExpectedReplicas (selectTablets tables tableNames tabletIds) - 1) :
    (ChecksumData tables tableNames tabletIds behavior arrived timeout).complete = true
    ∧ (ChecksumData tables tableNames tabletIds behavior arrived timeout).incompleteFinding
        = false
    ∧ (∀ t ∈ selectTablets tables tableNames tabletIds, ∀ rep ∈ t.replicas, ∀ st,
        behavior t.id rep.ts_uuid = some st →
        ((t.id, rep.ts_uuid), (st, 0)) ∈
          (ChecksumData tables tableNames tabletIds behavior arrived timeout).results) := by
  rw [ChecksumData_eq]
  have hcount := checksumReporter_count tables tableNames tabletIds behavior arrived
  have hzero : (checksumReporter tables tableNames tabletIds behavior arrived).responses_count
      = 0 := by
    rw [hcount, hrej, harr]
    omega
  refine ⟨?_, ?_, ?_⟩
  · simp [WaitFor, hzero]
  · simp [WaitFor, hzero]
  · intro t ht rep hrep st hst
    exact applyEvents_checksums_mono arrived _ _
      (issueScans_records behavior t rep st hrep hst _ _ ht)

/-- Witness for sync_rejection_still_completes: one of two scans is
rejected synchronously, the other reports; the reporter completes and
holds the rejection's error entry. -/
theorem sync_rejection_still_completes_witness :
    (ChecksumData
        [⟨"T", "s", 2, [⟨"tab", [⟨"a", true, false⟩, ⟨"b", false, true⟩]⟩]⟩] [] []
        (fun tid uuid => if tid == "tab" && uuid == "b" then some (Status.error "rej") else none)
        [ReportEvent.result "tab" "a" 7] 0).complete = true
    ∧ (("tab", "b"), (Status.error "rej", 0)) ∈ (ChecksumData
        [⟨"T", "s", 2, [⟨"tab", [⟨"a", true, false⟩, ⟨"b", false, true⟩]⟩]⟩] [] []
        (fun tid uuid => if tid == "tab" && uuid == "b" then some (Status.error "rej") else none)
        [ReportEvent.result "tab" "a" 7] 0).results := by
  have h := sync_rejection_still_completes
    [⟨"T", "s", 2, [⟨"tab", [⟨"a", true, false⟩, ⟨"b", false, true⟩]⟩]⟩] [] []
    (fun tid uuid => if tid == "tab" && uuid == "b" then some (Status.error "rej") else none)
    [ReportEvent.result "tab" "a" 7] 0 (by decide) (by decide)
  refine ⟨h.1, ?_⟩
  exact h.2.2 ⟨"tab", [⟨"a", true, false⟩, ⟨"b", false, true⟩]⟩ (by decide)
    ⟨"b", false, true⟩ (by decide) (Status.error "rej") (by decide)

end Ksck
